import Mathlib

/-
  Verification development for the talazo-kg pipeline.

  Shallow embedding of the request-queueing and result-consumption code of
  `named_entity_recognition/ner.py`, `pipeline/relation_extraction/re.py`
  and `pipeline/model/llm_client.py`, together with a model of the request
  dispatcher `process_api_requests_from_file` (whose source file is not part
  of the repository snapshot; it is modelled from the specification).

  JSON values are modelled by the inductive `Json`; Python `None` and JSON
  `null` decode to the same Python value, so both are represented by
  `Json.null`.  Python-level exceptions that the embedded code can raise
  (`ValueError`, `TypeError`, `AttributeError`, `IndexError`, `KeyError`)
  are represented by `Except PyErr`.  External library functions
  (`json.loads`, the OpenAI client call, the entity normalizer) are
  parameters of the embedded functions, exactly as the surrounding objects
  inject them in the source.
-/

namespace TalazoKG

inductive Json where
  | null
  | bool (b : Bool)
  | num (n : Int)
  | str (s : String)
  | arr (elems : List Json)
  | obj (fields : List (String × Json))

mutual

def Json.decEq : (a b : Json) → Decidable (a = b)
  | .null, .null => isTrue rfl
  | .bool a, .bool b =>
    match Bool.decEq a b with
    | isTrue h => isTrue (h ▸ rfl)
    | isFalse h => isFalse (fun e => h (Json.bool.inj e))
  | .num a, .num b =>
    match Int.instDecidableEq a b with
    | isTrue h => isTrue (h ▸ rfl)
    | isFalse h => isFalse (fun e => h (Json.num.inj e))
  | .str a, .str b =>
    match String.decEq a b with
    | isTrue h => isTrue (h ▸ rfl)
    | isFalse h => isFalse (fun e => h (Json.str.inj e))
  | .arr xs, .arr ys =>
    match Json.decEqList xs ys with
    | isTrue h => isTrue (h ▸ rfl)
    | isFalse h => isFalse (fun e => h (Json.arr.inj e))
  | .obj xs, .obj ys =>
    match Json.decEqObj xs ys with
    | isTrue h => isTrue (h ▸ rfl)
    | isFalse h => isFalse (fun e => h (Json.obj.inj e))
  | .null, .bool _ => isFalse (fun h => Json.noConfusion h)
  | .null, .num _ => isFalse (fun h => Json.noConfusion h)
  | .null, .str _ => isFalse (fun h => Json.noConfusion h)
  | .null, .arr _ => isFalse (fun h => Json.noConfusion h)
  | .null, .obj _ => isFalse (fun h => Json.noConfusion h)
  | .bool _, .null => isFalse (fun h => Json.noConfusion h)
  | .bool _, .num _ => isFalse (fun h => Json.noConfusion h)
  | .bool _, .str _ => isFalse (fun h => Json.noConfusion h)
  | .bool _, .arr _ => isFalse (fun h => Json.noConfusion h)
  | .bool _, .obj _ => isFalse (fun h => Json.noConfusion h)
  | .num _, .null => isFalse (fun h => Json.noConfusion h)
  | .num _, .bool _ => isFalse (fun h => Json.noConfusion h)
  | .num _, .str _ => isFalse (fun h => Json.noConfusion h)
  | .num _, .arr _ => isFalse (fun h => Json.noConfusion h)
  | .num _, .obj _ => isFalse (fun h => Json.noConfusion h)
  | .str _, .null => isFalse (fun h => Json.noConfusion h)
  | .str _, .bool _ => isFalse (fun h => Json.noConfusion h)
  | .str _, .num _ => isFalse (fun h => Json.noConfusion h)
  | .str _, .arr _ => isFalse (fun h => Json.noConfusion h)
  | .str _, .obj _ => isFalse (fun h => Json.noConfusion h)
  | .arr _, .null => isFalse (fun h => Json.noConfusion h)
  | .arr _, .bool _ => isFalse (fun h => Json.noConfusion h)
  | .arr _, .num _ => isFalse (fun h => Json.noConfusion h)
  | .arr _, .str _ => isFalse (fun h => Json.noConfusion h)
  | .arr _, .obj _ => isFalse (fun h => Json.noConfusion h)
  | .obj _, .null => isFalse (fun h => Json.noConfusion h)
  | .obj _, .bool _ => isFalse (fun h => Json.noConfusion h)
  | .obj _, .num _ => isFalse (fun h => Json.noConfusion h)
  | .obj _, .str _ => isFalse (fun h => Json.noConfusion h)
  | .obj _, .arr _ => isFalse (fun h => Json.noConfusion h)

def Json.decEqList : (xs ys : List Json) → Decidable (xs = ys)
  | [], [] => isTrue rfl
  | [], _ :: _ => isFalse (fun h => List.noConfusion h)
  | _ :: _, [] => isFalse (fun h => List.noConfusion h)
  | x :: xs, y :: ys =>
    match Json.decEq x y with
    | isFalse h => isFalse (fun e => h (List.cons.inj e).1)
    | isTrue h1 =>
      match Json.decEqList xs ys with
      | isTrue h2 => isTrue (h1 ▸ h2 ▸ rfl)
      | isFalse h => isFalse (fun e => h (List.cons.inj e).2)

def Json.decEqObj : (xs ys : List (String × Json)) → Decidable (xs = ys)
  | [], [] => isTrue rfl
  | [], _ :: _ => isFalse (fun h => List.noConfusion h)
  | _ :: _, [] => isFalse (fun h => List.noConfusion h)
  | (k, v) :: xs, (l, w) :: ys =>
    match String.decEq k l with
    | isFalse h => isFalse (fun e => h (congrArg Prod.fst (List.cons.inj e).1))
    | isTrue h1 =>
      match Json.decEq v w with
      | isFalse h => isFalse (fun e => h (congrArg Prod.snd (List.cons.inj e).1))
      | isTrue h2 =>
        match Json.decEqObj xs ys with
        | isTrue h3 => isTrue (h1 ▸ h2 ▸ h3 ▸ rfl)
        | isFalse h => isFalse (fun e => h (List.cons.inj e).2)

end

instance : DecidableEq Json := Json.decEq

/-- Exceptions the embedded Python code can raise. -/
inductive PyErr where
  | valueError
  | typeError
  | attributeError
  | indexError
  | keyError
  deriving DecidableEq

/-- Whether a JSON value is a Python list (`isinstance(x, list)`). -/
def Json.isArr : Json → Bool
  | .arr _ => true
  | _ => false

/-- Python truthiness of a JSON-decoded value. -/
def pyTruthy : Json → Bool
  | .null => false
  | .bool b => b
  | .num n => !(n == 0)
  | .str s => !(s == "")
  | .arr xs => !xs.isEmpty
  | .obj kvs => !kvs.isEmpty

/-- Python `a or b` on JSON-decoded values. -/
def pyOr (j d : Json) : Json :=
  if pyTruthy j then j else d

/-- Python `x.get(k)`: dictionary lookup returning `None` (= `Json.null`)
    when the key is missing; `AttributeError` when `x` is not a dict. -/
def pyGet (j : Json) (k : String) : Except PyErr Json :=
  match j with
  | .obj kvs => .ok ((kvs.lookup k).getD .null)
  | _ => .error .attributeError

/-- Python `x.get(k, d)` with an explicit default. -/
def pyGetD (j : Json) (k : String) (d : Json) : Except PyErr Json :=
  match j with
  | .obj kvs => .ok ((kvs.lookup k).getD d)
  | _ => .error .attributeError

/-- Python `x[k]` for a string key `k`: `KeyError` on a dict without the
    key, `TypeError` on lists, strings and the other JSON values. -/
def pySubscript (j : Json) (k : String) : Except PyErr Json :=
  match j with
  | .obj kvs =>
    match kvs.lookup k with
    | some v => .ok v
    | none => .error .keyError
  | _ => .error .typeError

/-- Python `x[0]`. -/
def pyIndexZero (j : Json) : Except PyErr Json :=
  match j with
  | .arr [] => .error .indexError
  | .arr (x :: _) => .ok x
  | .str s =>
    match s.data with
    | [] => .error .indexError
    | c :: _ => .ok (.str ⟨[c]⟩)
  | .obj _ => .error .keyError
  | _ => .error .typeError

/-- Whether the Python value is hashable (lists and dicts are not). -/
def pyHashable : Json → Bool
  | .arr _ => false
  | .obj _ => false
  | _ => true

/-- Whether `needle` is a prefix of `hay`. -/
def charsPrefixOf : List Char → List Char → Bool
  | [], _ => true
  | _ :: _, [] => false
  | c :: cs, d :: ds => c == d && charsPrefixOf cs ds

/-- Whether `needle` occurs contiguously inside `hay`. -/
def charsInfixOf (needle : List Char) : List Char → Bool
  | [] => needle.isEmpty
  | hay@(_ :: t) => charsPrefixOf needle hay || charsInfixOf needle t

/-- Python `k in j` for a string literal `k`: key membership on dicts,
    element membership on lists, substring test on strings, `TypeError`
    otherwise. -/
def pyContains (k : String) (j : Json) : Except PyErr Bool :=
  match j with
  | .obj kvs => .ok (kvs.any (fun kv => kv.1 == k))
  | .arr xs => .ok (xs.any (fun x => x == Json.str k))
  | .str s => .ok (charsInfixOf k.data s.data)
  | _ => .error .typeError

/-- Python `needle in container` for JSON-decoded values.  (Python's
    cross-type `True == 1` equality is not modelled; no embedded code path
    compares booleans with numbers.) -/
def pyIn (needle container : Json) : Except PyErr Bool :=
  match container with
  | .arr xs => .ok (xs.any (fun x => x == needle))
  | .obj kvs =>
    if pyHashable needle then
      .ok (match needle with
        | .str n => kvs.any (fun kv => kv.1 == n)
        | _ => false)
    else .error .typeError
  | .str s =>
    match needle with
    | .str n => .ok (charsInfixOf n.data s.data)
    | _ => .error .typeError
  | _ => .error .typeError

/-- Python `float(x)` on a JSON-decoded value.  Numbers are kept symbolic
    and booleans convert; parsing of numeric strings is not modelled (no
    claim exercises it) and the remaining values raise, as in Python. -/
def pyFloat : Json → Except PyErr Json
  | .num n => .ok (.num n)
  | .bool b => .ok (.num (if b then 1 else 0))
  | _ => .error .typeError

/-- The argument check of `json.loads`: only strings are accepted here,
    any other JSON value raises `TypeError`. -/
def pyLoadsArg : Json → Except PyErr String
  | .str s => .ok s
  | _ => .error .typeError

/-- Python `str.strip()`: drop leading and trailing whitespace. -/
def pyStrip (s : String) : String :=
  ⟨((s.data.dropWhile Char.isWhitespace).reverse.dropWhile Char.isWhitespace).reverse⟩

/-- Python dict assignment `m[k] = v` on an association list: overwrite in
    place when the key is present, append otherwise. -/
def dictSet {κ ν : Type} [BEq κ] (m : List (κ × ν)) (k : κ) (v : ν) : List (κ × ν) :=
  if m.any (fun kv => kv.1 == k) then
    m.map (fun kv => if kv.1 == k then (k, v) else kv)
  else m ++ [(k, v)]

/-- Python `payload["metadata"] = ...` on a JSON dict.  (Only applied to
    dict payloads by the embedded code.) -/
def Json.setKey : Json → String → Json → Json
  | .obj kvs, k, v => .obj (dictSet kvs k v)
  | j, _, _ => j

/-- A sentence record (`utils.Sentence`). -/
structure Sentence where
  pmid : String
  sentence_id : Int
  text : String
  deriving DecidableEq

namespace LLMClient

/-- The request payload built by `LLMClient.build_chat_completion_kwargs`:
    model, the two chat messages, then the optional `temperature` and, in
    JSON mode, the `response_format` field. -/
def build_chat_completion_kwargs (model prompt : String) (temperature : Option Json)
    (json_mode : Bool) : Json :=
  let base : List (String × Json) :=
    [("model", .str model),
     ("messages", .arr
       [.obj [("role", .str "system"),
              ("content", .str "You are a biomedical relation extraction assistant.")],
        .obj [("role", .str "user"), ("content", .str prompt)]])]
  let withTemp := match temperature with
    | some t => base ++ [("temperature", t)]
    | none => base
  let withFormat :=
    if json_mode then withTemp ++ [("response_format", .obj [("type", .str "json_object")])]
    else withTemp
  Json.obj withFormat

/-- A chat message returned by the OpenAI client (`content` may be `None`). -/
structure ChatMessage where
  content : Option String
  deriving DecidableEq

/-- One choice of a chat completion response. -/
structure ChatChoice where
  message : ChatMessage
  deriving DecidableEq

/-- A successful response object of the OpenAI client. -/
structure ChatResponse where
  choices : List ChatChoice
  deriving DecidableEq

/-- Outcome of the external `client.chat.completions.create(**kwargs)`
    call: either some exception was raised, or a response came back. -/
inductive CallResult where
  | raised (exc : String)
  | completed (response : ChatResponse)

/-- The dictionary `{"text": ..., "json": ...}` returned by `_request`. -/
structure LLMResult where
  text : String
  json : Option Json
  deriving DecidableEq

/-- `LLMClient._request`: builds the kwargs, performs the external call
    (parameter `call`), swallows any exception the call raises, reads
    `response.choices[0].message` (outside the `try`, so an empty choices
    list raises `IndexError`), and in JSON mode decodes non-empty content
    with `json.loads` (parameter `parse`), mapping decode failures to
    `"json": None`. -/
def request (parse : String → Option Json) (call : Json → CallResult)
    (model prompt : String) (temperature : Option Json) (json_mode : Bool) :
    Except PyErr LLMResult :=
  let kwargs := build_chat_completion_kwargs model prompt temperature json_mode
  match call kwargs with
  | .raised _ => .ok { text := "", json := none }
  | .completed response =>
    match response.choices with
    | [] => .error .indexError
    | choice :: _ =>
      let content := choice.message.content.getD ""
      let data : Option Json :=
        if json_mode && !(content == "") then parse content else none
      .ok { text := content, json := data }

/-- `LLMClient.complete`: `_request` with `json_mode=False`. -/
def complete (parse : String → Option Json) (call : Json → CallResult)
    (model prompt : String) (temperature : Option Json) : Except PyErr LLMResult :=
  request parse call model prompt temperature false

/-- `LLMClient.json_complete`: `_request` with `json_mode=True` and no
    temperature. -/
def json_complete (parse : String → Option Json) (call : Json → CallResult)
    (model prompt : String) : Except PyErr LLMResult :=
  request parse call model prompt none true

end LLMClient

namespace NamedEntityRecognition

/-- The mutable state of a `NamedEntityRecognition` instance that the
    queueing code touches: the sentence lookup table, the sentence counter,
    whether the requests file handle is open, and the JSON lines written to
    the requests file (each line represented by its JSON value). -/
structure NERState where
  sentence_lookup : List ((String × Int) × Sentence)
  total_sentences : Nat
  handleOpen : Bool
  requestLines : List Json

/-- `NamedEntityRecognition._build_prompt`. -/
def build_prompt (classes : List String) (s : Sentence) : String :=
  "Identify biomedical entities for the sentence below (if any). If the entity doesn\x27t fit confidently into one of the given classes, even if it is biomedical in nature, omit it.\n"
    ++ "Classes: " ++ String.intercalate ", " classes ++ ".\n"
    ++ "Return JSON with `entities`: [\x7btext,class,start,end,ids\x7d].\n"
    ++ "Sentence: " ++ s.text

/-- The metadata dict attached to a queued sentence by `add_sentence`. -/
def sentenceMetadata (s : Sentence) : Json :=
  .obj [("pmid", .str s.pmid), ("sentence_id", .num s.sentence_id), ("text", .str s.text)]

/-- The JSON line `add_sentence` writes for a sentence: the chat-completion
    kwargs for the sentence's prompt, with the metadata dict stored under
    `"metadata"`. -/
def requestPayload (model : String) (classes : List String) (s : Sentence) : Json :=
  (LLMClient.build_chat_completion_kwargs model (build_prompt classes s) none true).setKey
    "metadata" (sentenceMetadata s)

/-- `NamedEntityRecognition.add_sentence`: records the sentence under its
    `(pmid, sentence_id)` key, bumps the counter, reopens (and thereby
    truncates) the requests file when the handle is closed, and appends one
    JSON line carrying the payload and metadata. -/
def add_sentence (model : String) (classes : List String) (st : NERState) (s : Sentence) :
    NERState :=
  let lookup := dictSet st.sentence_lookup (s.pmid, s.sentence_id) s
  let total := st.total_sentences + 1
  let lines := if st.handleOpen then st.requestLines else []
  { sentence_lookup := lookup, total_sentences := total, handleOpen := true,
    requestLines := lines ++ [requestPayload model classes s] }

/-- `NamedEntityRecognition._decode_line`: `json.loads` the line (a decode
    failure is a `JSONDecodeError`, a subclass of `ValueError`), require a
    JSON array of length at least 2, and default the metadata element to
    the empty dict. -/
def decode_line (parse : String → Option Json) (line : String) :
    Except PyErr (Json × Json × Json) :=
  match parse line with
  | none => .error .valueError
  | some (.arr (request :: response :: rest)) => .ok (request, response, rest.headD (.obj []))
  | some _ => .error .valueError

/-- `NamedEntityRecognition._parse_response`: empty entity list for an
    array-shaped response (retries exhausted), for an `"error"` response,
    for missing choices/content and for undecodable content; otherwise the
    normalized entities of the decoded payload.  `parse` is `json.loads`,
    `normalize` the injected `self.normalizer.normalize`. -/
def parse_response (parse : String → Option Json) (normalize : Json → Json)
    (sentence : Sentence) (metadata response : Json) : Except PyErr (List Json) :=
  if response.isArr then .ok []
  else do
    let hasErr ← pyContains "error" response
    if hasErr then do
      let _ ← pySubscript response "error"
      .ok []
    else do
      let choices := pyOr (← pyGet response "choices") (.arr [])
      if !(pyTruthy choices) then .ok []
      else do
        let first ← pyIndexZero choices
        let message := pyOr (← pyGet first "message") (.obj [])
        let content := pyOr (← pyGet message "content") (.str "")
        if !(pyTruthy content) then .ok []
        else do
          let contentStr ← pyLoadsArg content
          match parse contentStr with
          | none => .ok []
          | some payload => do
            let entities ← pyGetD payload "entities" (.arr [])
            match entities with
            | .arr items => .ok (items.map normalize)
            | .str s => .ok (s.data.map (fun c => Json.str ⟨[c]⟩ |> normalize))
            | .obj kvs => .ok (kvs.map (fun kv => Json.str kv.1 |> normalize))
            | _ => .error .typeError

/-- Python `self._sentence_lookup.get((pm, sid))`: an unhashable key
    component raises `TypeError`; otherwise the sentence queued under the
    string/int pair, if any. -/
def sentenceLookupGet (lookup : List ((String × Int) × Sentence)) (pm sid : Json) :
    Except PyErr (Option Sentence) :=
  if pyHashable pm && pyHashable sid then
    .ok (match pm, sid with
      | .str p, .num i => lookup.lookup (p, i)
      | _, _ => none)
  else .error .typeError

/-- The mapping `_collect_entities` builds: `(pmid, sentence_id)` metadata
    keys to normalized entity lists. -/
abbrev EntityMap := List ((Json × Json) × List Json)

/-- One iteration of the `_collect_entities` loop on a stripped-and-decoded
    line: `.ok none` when the line is skipped (blank, undecodable, or its
    metadata key matches no queued sentence), `.ok (some (key, entities))`
    when the line contributes entities under its metadata key, `.error` when
    an uncaught exception aborts the collection. -/
def procLine (parse : String → Option Json) (normalize : Json → Json)
    (lookup : List ((String × Int) × Sentence)) (line : String) :
    Except PyErr (Option ((Json × Json) × List Json)) :=
  if pyStrip line == "" then .ok none
  else
    match decode_line parse (pyStrip line) with
    | .error .valueError => .ok none
    | .error e => .error e
    | .ok (_, response, metadata) => do
      let pm ← pyGet metadata "pmid"
      let sid ← pyGet metadata "sentence_id"
      match (← sentenceLookupGet lookup pm sid) with
      | none => .ok none
      | some sentence => do
        let entities ← parse_response parse normalize sentence metadata response
        .ok (some ((pm, sid), entities))

/-- The `_collect_entities` loop over the result lines, threading the
    mapping being built. -/
def collectLoop (parse : String → Option Json) (normalize : Json → Json)
    (lookup : List ((String × Int) × Sentence)) :
    List String → EntityMap → Except PyErr EntityMap
  | [], m => .ok m
  | line :: rest, m =>
    match procLine parse normalize lookup line with
    | .error e => .error e
    | .ok none => collectLoop parse normalize lookup rest m
    | .ok (some (k, entities)) =>
      collectLoop parse normalize lookup rest (dictSet m k entities)

/-- `NamedEntityRecognition._collect_entities`: empty mapping when the
    results file is missing, otherwise the loop over its lines. -/
def collect_entities (parse : String → Option Json) (normalize : Json → Json)
    (lookup : List ((String × Int) × Sentence)) (file : Option (List String)) :
    Except PyErr EntityMap :=
  match file with
  | none => .ok []
  | some lines => collectLoop parse normalize lookup lines []

/-- `NamedEntityRecognition.run`: with no queued sentences, skip the API
    call and return the empty mapping; with an unset or empty
    `OPENAI_API_KEY` (modelled by `apiKey = ""`, the `os.getenv` default),
    raise `ValueError`; otherwise dispatch (the boolean of the result) and
    collect the entities from the results file written by the dispatcher. -/
def run (parse : String → Option Json) (normalize : Json → Json) (st : NERState)
    (apiKey : String) (resultsFile : Option (List String)) :
    Bool × Except PyErr EntityMap :=
  if st.total_sentences = 0 then (false, .ok [])
  else if apiKey == "" then (false, .error .valueError)
  else (true, collect_entities parse normalize st.sentence_lookup resultsFile)

end NamedEntityRecognition

namespace RelationExtraction

/-- `RelationExtraction._build_relation`.  `parse` is `json.loads`, `now`
    the `timestamp()` of the call.  `metadata` is the third element of the
    result line (`Json.null` both for a missing element and for JSON
    `null`, which decode to the same Python `None`).  Every logging call of
    the source evaluates its `metadata.get(...)` arguments, so each early
    `return None` branch performs those lookups first — on a metadata value
    that is neither `None` nor a dict they raise `AttributeError`. -/
def build_relation (parse : String → Option Json) (now : String)
    (metadata response : Json) : Except PyErr (Option Json) :=
  match metadata with
  | .null => .ok none
  | md =>
    if response.isArr then do
      let _ ← pyGet md "pmid"
      let _ ← pyGet md "sentence_id"
      .ok none
    else do
      let hasErr ← pyContains "error" response
      if hasErr then do
        let _ ← pyGet md "pmid"
        let _ ← pyGet md "sentence_id"
        let _ ← pySubscript response "error"
        .ok none
      else do
        let choices := pyOr (← pyGet response "choices") (.arr [])
        if !(pyTruthy choices) then do
          let _ ← pyGet md "pmid"
          let _ ← pyGet md "sentence_id"
          .ok none
        else do
          let first ← pyIndexZero choices
          let message := pyOr (← pyGet first "message") (.obj [])
          let content := pyOr (← pyGet message "content") (.str "")
          if !(pyTruthy content) then do
            let _ ← pyGet md "pmid"
            let _ ← pyGet md "sentence_id"
            .ok none
          else do
            let contentStr ← pyLoadsArg content
            match parse contentStr with
            | none => do
              let _ ← pyGet md "pmid"
              let _ ← pyGet md "sentence_id"
              .ok none
            | some result => do
              let predicate ← pyGet result "predicate"
              let allowed ← pyGetD md "predicate_names" (.arr [])
              let isAllowed ← pyIn predicate allowed
              if !isAllowed then do
                let _ ← pyGet md "pmid"
                let _ ← pyGet md "sentence_id"
                .ok none
              else do
                let confidence ← pyFloat (← pyGetD result "confidence" (.num 0))
                let explanation ← pyGetD result "explanation" (.str "")
                .ok (some (.obj
                  [("pmid", (← pyGet md "pmid")),
                   ("sentence_id", (← pyGet md "sentence_id")),
                   ("sentence", (← pyGet md "sentence")),
                   ("subject", (← pyGet md "subject")),
                   ("object", (← pyGet md "object")),
                   ("predicate", predicate),
                   ("confidence", confidence),
                   ("model_name", (← pyGet md "model_name")),
                   ("model_version", (← pyGet md "model_version")),
                   ("prompt_version", (← pyGet md "prompt_version")),
                   ("timestamp", .str now),
                   ("explanation", explanation)]))

/-- The `_read_results` loop: blank, undecodable and non-array-of-length-2
    lines are skipped; otherwise `_build_relation` is applied to the
    line's response and (defaulted) metadata and non-`None` relations are
    appended. -/
def readLoop (parse : String → Option Json) (now : String) :
    List String → List Json → Except PyErr (List Json)
  | [], acc => .ok acc
  | line :: rest, acc =>
    if pyStrip line == "" then readLoop parse now rest acc
    else
      match parse (pyStrip line) with
      | none => readLoop parse now rest acc
      | some (.arr (_ :: response :: extra)) => do
        let metadata := extra.headD Json.null
        match (← build_relation parse now metadata response) with
        | some relation => readLoop parse now rest (acc ++ [relation])
        | none => readLoop parse now rest acc
      | some _ => readLoop parse now rest acc

/-- `RelationExtraction._read_results`: empty list when the results file is
    missing, otherwise the loop over its lines. -/
def read_results (parse : String → Option Json) (now : String)
    (file : Option (List String)) : Except PyErr (List Json) :=
  match file with
  | none => .ok []
  | some lines => readLoop parse now lines []

/-- `RelationExtraction.run`: with no queued pairs, skip the API call and
    return the empty list; with an unset or empty `OPENAI_API_KEY`
    (modelled by `apiKey = ""`), raise `ValueError`; otherwise dispatch
    (the boolean of the result) and read the results file written by the
    dispatcher. -/
def run (parse : String → Option Json) (now : String) (totalPairs : Nat)
    (apiKey : String) (resultsFile : Option (List String)) :
    Bool × Except PyErr (List Json) :=
  if totalPairs = 0 then (false, .ok [])
  else if apiKey == "" then (false, .error .valueError)
  else (true, read_results parse now resultsFile)

end RelationExtraction

namespace Dispatcher

/-- Modelled from the spec: the per-attempt outcome classification of the
    Concurrent Sender (§4.4) — success with a response, retryable failure,
    or terminal failure, each carrying an opaque JSON value.  The source of
    `process_api_requests_from_file` is not part of the repository
    snapshot; this dispatcher model follows §§3, 4.3, 4.5 and 7 of the
    specification. -/
inductive Outcome where
  | success (response : Json)
  | retryable (error : Json)
  | terminal (error : Json)

/-- Whether an outcome is a retryable failure. -/
def Outcome.isRetryable : Outcome → Bool
  | .retryable _ => true
  | _ => false

/-- Modelled from the spec: a WorkItem (§3) — an opaque request payload and
    an opaque metadata blob, passed through untouched. -/
structure WorkItem where
  payload : Json
  metadata : Json
  deriving DecidableEq

/-- Modelled from the spec: a ResultRecord (§3, §6) — the line
    `[payload, response_or_error, metadata]` written to the save file,
    where the second element is the response on success, a single error
    object on terminal failure, or the array of accumulated per-attempt
    errors when retries are exhausted. -/
structure ResultRecord where
  payload : Json
  responseOrError : Json
  metadata : Json
  deriving DecidableEq

/-- Modelled from the spec: the retry loop of the Dispatch Loop for one
    WorkItem (§4.3, §7).  `attempt n` is the outcome of attempt number `n`
    (0-based); `fuel` is the number of attempts still allowed, `made` the
    attempts made so far, `errs` the accumulated retryable errors (most
    recent first).  Returns the total number of attempts made and the
    `response_or_error` element of the item's record. -/
def runAttempts (attempt : Nat → Outcome) : Nat → Nat → List Json → Nat × Json
  | 0, made, errs => (made, .arr errs.reverse)
  | fuel + 1, made, errs =>
    match attempt made with
    | .success response => (made + 1, response)
    | .terminal error => (made + 1, error)
    | .retryable error => runAttempts attempt fuel (made + 1) (error :: errs)

/-- Modelled from the spec: the ResultRecord of one WorkItem after its
    attempts, with payload and metadata passed through untouched (§3, §4.5). -/
def mkResultRecord (max_attempts : Nat) (attempt : Nat → Outcome) (item : WorkItem) :
    ResultRecord :=
  { payload := item.payload,
    responseOrError := (runAttempts attempt max_attempts 0 []).2,
    metadata := item.metadata }

/-- Modelled from the spec: the dispatcher over the queued items starting
    at submission index `i`; `attempts i n` is the outcome of attempt `n`
    of the item with submission index `i`. -/
def processFrom (max_attempts : Nat) (attempts : Nat → Nat → Outcome) :
    Nat → List WorkItem → List ResultRecord
  | _, [] => []
  | i, item :: rest =>
    mkResultRecord max_attempts (attempts i) item :: processFrom max_attempts attempts (i + 1) rest

/-- Modelled from the spec: `process_api_requests_from_file` — a completed
    run over a finite queue of work items, producing one ResultRecord per
    item (§4.5, §7, §8 Completeness). -/
def process_api_requests_from_file (max_attempts : Nat) (attempts : Nat → Nat → Outcome)
    (items : List WorkItem) : List ResultRecord :=
  processFrom max_attempts attempts 0 items

end Dispatcher

/-! ### Verification-specific definitions -/

/-- The metadata key a processed result line contributes to, if any. -/
def procKey (r : Except PyErr (Option ((Json × Json) × List Json))) : Option (Json × Json) :=
  match r with
  | .ok (some (k, _)) => some k
  | _ => none

/-- A results-file line (after stripping) that decodes to a JSON array of
    length at least 2. -/
def wellFormedLine (parse : String → Option Json) (l : String) : Bool :=
  match parse l with
  | some (.arr xs) => decide (2 ≤ xs.length)
  | _ => false

/-! ### Helper lemmas -/

theorem except_bind_ok {ε α β : Type} (a : α) (f : α → Except ε β) :
    (Except.ok a >>= f : Except ε β) = f a := rfl

theorem except_bind_error {ε α β : Type} (e : ε) (f : α → Except ε β) :
    ((Except.error e : Except ε α) >>= f : Except ε β) = .error e := rfl

theorem lookup_isSome_of_any {κ ν : Type} [BEq κ] [LawfulBEq κ] :
    ∀ (kvs : List (κ × ν)) (k : κ), kvs.any (fun kv => kv.1 == k) = true →
      ∃ v, kvs.lookup k = some v
  | [], _, h => by simp at h
  | a :: t, k, h => by
    cases ha : a.1 == k with
    | true =>
      have hk : (k == a.1) = true := by
        rw [eq_of_beq ha]
        exact beq_self_eq_true k
      exact ⟨a.2, by simp [List.lookup, hk]⟩
    | false =>
      have ht : t.any (fun kv => kv.1 == k) = true := by
        simp only [List.any_cons, ha, Bool.false_or] at h
        exact h
      obtain ⟨v, hv⟩ := lookup_isSome_of_any t k ht
      have hk : (k == a.1) = false := by
        rw [beq_eq_false_iff_ne] at ha ⊢
        exact fun e => ha e.symm
      exact ⟨v, by simp [List.lookup, hk, hv]⟩

theorem lookup_map_subst {κ ν : Type} [BEq κ] [LawfulBEq κ] :
    ∀ (m : List (κ × ν)) (k : κ) (v : ν), m.any (fun kv => kv.1 == k) = true →
      (m.map (fun kv => if kv.1 == k then (k, v) else kv)).lookup k = some v
  | [], k, v, h => by simp at h
  | a :: t, k, v, h => by
    rw [List.map_cons]
    cases ha : a.1 == k with
    | true =>
      rw [if_pos rfl]
      simp [List.lookup]
    | false =>
      have ht : t.any (fun kv => kv.1 == k) = true := by
        simp only [List.any_cons, ha, Bool.false_or] at h
        exact h
      have hk : (k == a.1) = false := by
        rw [beq_eq_false_iff_ne] at ha ⊢
        exact fun e => ha e.symm
      rw [if_neg Bool.false_ne_true]
      simp only [List.lookup, hk]
      exact lookup_map_subst t k v ht

theorem lookup_append_left {κ ν : Type} [BEq κ] [LawfulBEq κ] :
    ∀ (m : List (κ × ν)) (k : κ) (l : List (κ × ν)),
      m.any (fun kv => kv.1 == k) = false → (m ++ l).lookup k = l.lookup k
  | [], k, l, _ => rfl
  | a :: t, k, l, h => by
    simp only [List.any_cons, Bool.or_eq_false_iff] at h
    have hk : (k == a.1) = false := by
      rw [beq_eq_false_iff_ne]
      have := h.1
      rw [beq_eq_false_iff_ne] at this
      exact fun e => this e.symm
    simp only [List.cons_append, List.lookup, hk]
    exact lookup_append_left t k l h.2

theorem lookup_dictSet_self {κ ν : Type} [BEq κ] [LawfulBEq κ] (m : List (κ × ν)) (k : κ) (v : ν) :
    (dictSet m k v).lookup k = some v := by
  unfold dictSet
  cases h : m.any (fun kv => kv.1 == k) with
  | true =>
    rw [if_pos rfl]
    exact lookup_map_subst m k v h
  | false =>
    rw [if_neg Bool.false_ne_true]
    rw [lookup_append_left m k _ h]
    simp [List.lookup]

theorem lookup_dictSet_ne {κ ν : Type} [BEq κ] [LawfulBEq κ]
    (m : List (κ × ν)) (k k' : κ) (v : ν) (hne : k' ≠ k) :
    (dictSet m k v).lookup k' = m.lookup k' := by
  unfold dictSet
  cases h : m.any (fun kv => kv.1 == k) with
  | true =>
    rw [if_pos rfl]
    clear h
    induction m with
    | nil => rfl
    | cons a t ih =>
      rw [List.map_cons]
      cases ha : a.1 == k with
      | true =>
        have hak : a.1 = k := eq_of_beq ha
        have h1 : (k' == k) = false := beq_eq_false_iff_ne.mpr hne
        have h2 : (k' == a.1) = false := by rw [hak]; exact h1
        rw [if_pos rfl]
        simp only [List.lookup, h1, h2]
        exact ih
      | false =>
        rw [if_neg Bool.false_ne_true]
        cases hka : k' == a.1 with
        | true => simp only [List.lookup, hka]
        | false =>
          simp only [List.lookup, hka]
          exact ih
  | false =>
    rw [if_neg Bool.false_ne_true]
    induction m with
    | nil =>
      simp [List.lookup, beq_eq_false_iff_ne.mpr hne]
    | cons a t ih =>
      simp only [List.any_cons, Bool.or_eq_false_iff] at h
      cases hka : k' == a.1 with
      | true => simp only [List.cons_append, List.lookup, hka]
      | false =>
        simp only [List.cons_append, List.lookup, hka]
        exact ih h.2

theorem processFrom_length (max_attempts : Nat) (attempts : Nat → Nat → Dispatcher.Outcome) :
    ∀ (i : Nat) (items : List Dispatcher.WorkItem),
      (Dispatcher.processFrom max_attempts attempts i items).length = items.length
  | _, [] => rfl
  | i, _ :: rest => by
    simp only [Dispatcher.processFrom, List.length_cons,
      processFrom_length max_attempts attempts (i + 1) rest]

theorem processFrom_metadata (max_attempts : Nat) (attempts : Nat → Nat → Dispatcher.Outcome) :
    ∀ (i : Nat) (items : List Dispatcher.WorkItem),
      (Dispatcher.processFrom max_attempts attempts i items).map Dispatcher.ResultRecord.metadata
        = items.map Dispatcher.WorkItem.metadata
  | _, [] => rfl
  | i, it :: rest => by
    simp only [Dispatcher.processFrom, List.map_cons,
      processFrom_metadata max_attempts attempts (i + 1) rest]
    rfl

theorem runAttempts_retryable (attempt : Nat → Dispatcher.Outcome)
    (h : ∀ n, (attempt n).isRetryable = true) :
    ∀ (fuel made : Nat) (errs : List Json), ∃ es : List Json,
      Dispatcher.runAttempts attempt fuel made errs = (made + fuel, .arr es) ∧
      es.length = errs.length + fuel
  | 0, made, errs => ⟨errs.reverse, by simp [Dispatcher.runAttempts]⟩
  | fuel + 1, made, errs => by
    cases ha : attempt made with
    | success r =>
      have hr := h made
      rw [ha] at hr
      exact absurd hr (by simp [Dispatcher.Outcome.isRetryable])
    | terminal e =>
      have hr := h made
      rw [ha] at hr
      exact absurd hr (by simp [Dispatcher.Outcome.isRetryable])
    | retryable e =>
      obtain ⟨es, heq, hlen⟩ := runAttempts_retryable attempt h fuel (made + 1) (e :: errs)
      have harith : made + 1 + fuel = made + (fuel + 1) := by omega
      rw [harith] at heq
      refine ⟨es, ?_, ?_⟩
      · simp only [Dispatcher.runAttempts, ha]
        exact heq
      · simp only [List.length_cons] at hlen
        omega

theorem collectLoop_preserve (parse : String → Option Json) (normalize : Json → Json)
    (lookup : List ((String × Int) × Sentence)) (k : Json × Json) :
    ∀ (lines : List String) (m m2 : NamedEntityRecognition.EntityMap),
      NamedEntityRecognition.collectLoop parse normalize lookup lines m = .ok m2 →
      (∀ l ∈ lines, procKey (NamedEntityRecognition.procLine parse normalize lookup l) ≠ some k) →
      m2.lookup k = m.lookup k
  | [], m, m2, h, _ => by
    simp only [NamedEntityRecognition.collectLoop] at h
    cases h
    rfl
  | line :: rest, m, m2, h, hk => by
    cases hp : NamedEntityRecognition.procLine parse normalize lookup line with
    | error e =>
      simp only [NamedEntityRecognition.collectLoop, hp] at h
      exact Except.noConfusion h
    | ok o =>
      cases o with
      | none =>
        simp only [NamedEntityRecognition.collectLoop, hp] at h
        exact collectLoop_preserve parse normalize lookup k rest m m2 h
          (fun l hl => hk l (List.mem_cons_of_mem _ hl))
      | some kv =>
        obtain ⟨k2, ents⟩ := kv
        have hne : k2 ≠ k := by
          intro e
          exact hk line (List.mem_cons_self _ _) (by rw [hp, e]; rfl)
        simp only [NamedEntityRecognition.collectLoop, hp] at h
        have := collectLoop_preserve parse normalize lookup k rest _ m2 h
          (fun l hl => hk l (List.mem_cons_of_mem _ hl))
        rw [this, lookup_dictSet_ne _ _ _ _ (fun e => hne e.symm)]

theorem collectLoop_key_value (parse : String → Option Json) (normalize : Json → Json)
    (lookup : List ((String × Int) × Sentence)) (line : String) (k : Json × Json)
    (ents : List Json) (post : List String)
    (hline : NamedEntityRecognition.procLine parse normalize lookup line = .ok (some (k, ents)))
    (hpost : ∀ l ∈ post, procKey (NamedEntityRecognition.procLine parse normalize lookup l) ≠ some k) :
    ∀ (pre : List String) (m m2 : NamedEntityRecognition.EntityMap),
      (∀ l ∈ pre, procKey (NamedEntityRecognition.procLine parse normalize lookup l) ≠ some k) →
      NamedEntityRecognition.collectLoop parse normalize lookup (pre ++ line :: post) m = .ok m2 →
      m2.lookup k = some ents
  | [], m, m2, _, h => by
    simp only [List.nil_append, NamedEntityRecognition.collectLoop, hline] at h
    have := collectLoop_preserve parse normalize lookup k post _ m2 h hpost
    rw [this, lookup_dictSet_self]
  | p :: pre, m, m2, hpre, h => by
    cases hp : NamedEntityRecognition.procLine parse normalize lookup p with
    | error e =>
      simp only [List.cons_append, NamedEntityRecognition.collectLoop, hp] at h
      exact Except.noConfusion h
    | ok o =>
      cases o with
      | none =>
        simp only [List.cons_append, NamedEntityRecognition.collectLoop, hp] at h
        exact collectLoop_key_value parse normalize lookup line k ents post hline hpost pre m m2
          (fun l hl => hpre l (List.mem_cons_of_mem _ hl)) h
      | some kv =>
        obtain ⟨k2, e2⟩ := kv
        simp only [List.cons_append, NamedEntityRecognition.collectLoop, hp] at h
        exact collectLoop_key_value parse normalize lookup line k ents post hline hpost pre _ m2
          (fun l hl => hpre l (List.mem_cons_of_mem _ hl)) h

theorem collectLoop_skip (parse : String → Option Json) (normalize : Json → Json)
    (lookup : List ((String × Int) × Sentence)) (line : String) (post : List String)
    (hline : NamedEntityRecognition.procLine parse normalize lookup line = .ok none) :
    ∀ (pre : List String) (m : NamedEntityRecognition.EntityMap),
      NamedEntityRecognition.collectLoop parse normalize lookup (pre ++ line :: post) m =
        NamedEntityRecognition.collectLoop parse normalize lookup (pre ++ post) m
  | [], m => by
    simp only [List.nil_append, NamedEntityRecognition.collectLoop, hline]
  | p :: pre, m => by
    cases hp : NamedEntityRecognition.procLine parse normalize lookup p with
    | error e =>
      simp only [List.cons_append, NamedEntityRecognition.collectLoop, hp]
    | ok o =>
      cases o with
      | none =>
        simp only [List.cons_append, NamedEntityRecognition.collectLoop, hp]
        exact collectLoop_skip parse normalize lookup line post hline pre m
      | some kv =>
        obtain ⟨k2, e2⟩ := kv
        simp only [List.cons_append, NamedEntityRecognition.collectLoop, hp]
        exact collectLoop_skip parse normalize lookup line post hline pre _

/-! ### Claims -/

/-- C1: a completed dispatcher run writes exactly one result record per queued
    work item, and when the queued items carry pairwise distinct metadata
    values, each item's metadata value appears in exactly one record. -/
theorem C1_completeness (max_attempts : Nat) (attempts : Nat → Nat → Dispatcher.Outcome)
    (items : List Dispatcher.WorkItem) :
    (Dispatcher.process_api_requests_from_file max_attempts attempts items).length
      = items.length ∧
    ((items.map Dispatcher.WorkItem.metadata).Nodup →
      ∀ it ∈ items,
        ((Dispatcher.process_api_requests_from_file max_attempts attempts items).filter
          (fun r => r.metadata == it.metadata)).length = 1) := by
  constructor
  · exact processFrom_length max_attempts attempts 0 items
  · intro hnd it hit
    rw [← List.countP_eq_length_filter]
    have h2 : (Dispatcher.process_api_requests_from_file max_attempts attempts items).countP
          (fun r => r.metadata == it.metadata)
        = ((Dispatcher.process_api_requests_from_file max_attempts attempts items).map
            Dispatcher.ResultRecord.metadata).countP (fun x => x == it.metadata) := by
      rw [List.countP_map]
      rfl
    rw [h2]
    unfold Dispatcher.process_api_requests_from_file
    rw [processFrom_metadata]
    have h3 : (items.map Dispatcher.WorkItem.metadata).countP (fun x => x == it.metadata)
        = (items.map Dispatcher.WorkItem.metadata).count it.metadata := rfl
    rw [h3]
    exact List.count_eq_one_of_mem hnd (List.mem_map_of_mem _ hit)

theorem C1_completeness_witness :
    (([(⟨.null, .num 0⟩ : Dispatcher.WorkItem), ⟨.null, .num 1⟩].map
        Dispatcher.WorkItem.metadata).Nodup) ∧
    ((Dispatcher.process_api_requests_from_file 1 (fun _ _ => Dispatcher.Outcome.success .null)
        [(⟨.null, .num 0⟩ : Dispatcher.WorkItem), ⟨.null, .num 1⟩]).filter
      (fun r => r.metadata == (⟨Json.null, Json.num 0⟩ : Dispatcher.WorkItem).metadata)).length
      = 1 :=
  ⟨by decide,
   (C1_completeness 1 (fun _ _ => Dispatcher.Outcome.success .null) _).2 (by decide)
     ⟨.null, .num 0⟩ (by decide)⟩

/-- C2: an item whose every attempt fails retryably is attempted exactly
    `max_attempts` times, and its result record's second element is the
    accumulated error array of length exactly `max_attempts`. -/
theorem C2_retry_bound (attempt : Nat → Dispatcher.Outcome) (max_attempts : Nat)
    (item : Dispatcher.WorkItem) (h : ∀ n, (attempt n).isRetryable = true) :
    (Dispatcher.runAttempts attempt max_attempts 0 []).1 = max_attempts ∧
    ∃ es : List Json, es.length = max_attempts ∧
      Dispatcher.mkResultRecord max_attempts attempt item =
        ⟨item.payload, .arr es, item.metadata⟩ := by
  obtain ⟨es, heq, hlen⟩ := runAttempts_retryable attempt h max_attempts 0 []
  simp only [List.length_nil, Nat.zero_add] at heq hlen
  constructor
  · rw [heq]
  · exact ⟨es, hlen, by simp [Dispatcher.mkResultRecord, heq]⟩

theorem C2_retry_bound_witness :
    (∀ n, ((fun _ : Nat => Dispatcher.Outcome.retryable Json.null) n).isRetryable = true) ∧
    (Dispatcher.runAttempts (fun _ : Nat => Dispatcher.Outcome.retryable Json.null) 3 0 []).1 = 3 ∧
    ∃ es : List Json, es.length = 3 ∧
      Dispatcher.mkResultRecord 3 (fun _ : Nat => Dispatcher.Outcome.retryable Json.null)
          ⟨.null, .null⟩ =
        ⟨.null, .arr es, .null⟩ :=
  ⟨fun _ => rfl, C2_retry_bound _ 3 ⟨.null, .null⟩ (fun _ => rfl)⟩

/-- C3 counterexample: a result line whose second element is a JSON array but
    whose metadata element is a non-object JSON value makes
    `_build_relation` raise `AttributeError` (from the `metadata.get`
    arguments of its logging call) instead of returning `None`. -/
theorem C3_exhausted_array_counterexample :
    RelationExtraction.build_relation (fun _ => none) "t" (Json.num 7) (Json.arr []) =
      .error .attributeError ∧
    RelationExtraction.readLoop
        (fun s => if s == "L" then some (.arr [.null, .arr [], .num 7]) else none) "t"
        ["L"] [] = .error .attributeError :=
  ⟨rfl, rfl⟩

/-- C3 amended: for every result line whose second element is a JSON array
    (retries exhausted), `_parse_response` returns the empty entity list, and
    `_build_relation` returns `None` whenever the line's metadata element is
    absent/null or a JSON object (a non-object metadata raises instead). -/
theorem C3_exhausted_array_amended (parse : String → Option Json) (normalize : Json → Json)
    (sentence : Sentence) (metadata : Json) (errs : List Json) (now : String)
    (kvs : List (String × Json)) :
    NamedEntityRecognition.parse_response parse normalize sentence metadata (.arr errs) =
      .ok [] ∧
    RelationExtraction.build_relation parse now .null (.arr errs) = .ok none ∧
    RelationExtraction.build_relation parse now (.obj kvs) (.arr errs) = .ok none :=
  ⟨rfl, rfl, rfl⟩

/-- C4 counterexample: a result line whose second element is a single JSON
    object containing `"error"` but whose metadata element is a non-object
    JSON value makes `_build_relation` raise `AttributeError` instead of
    returning `None`. -/
theorem C4_fatal_error_object_counterexample :
    RelationExtraction.build_relation (fun _ => none) "t" (Json.num 7)
        (Json.obj [("error", .str "boom")]) = .error .attributeError ∧
    RelationExtraction.readLoop
        (fun s => if s == "L" then
          some (.arr [.null, .obj [("error", .str "boom")], .num 7]) else none)
        "t" ["L"] [] = .error .attributeError :=
  ⟨rfl, rfl⟩

/-- C4 amended: for every result line whose second element is a single JSON
    object containing the key `"error"`, `_parse_response` returns the empty
    entity list, and `_build_relation` returns `None` whenever the line's
    metadata element is absent/null or a JSON object (a non-object metadata
    raises instead). -/
theorem C4_fatal_error_object_amended (parse : String → Option Json) (normalize : Json → Json)
    (sentence : Sentence) (metadata : Json) (now : String) (kvs mkvs : List (String × Json))
    (h : kvs.any (fun kv => kv.1 == "error") = true) :
    NamedEntityRecognition.parse_response parse normalize sentence metadata (.obj kvs) =
      .ok [] ∧
    RelationExtraction.build_relation parse now .null (.obj kvs) = .ok none ∧
    RelationExtraction.build_relation parse now (.obj mkvs) (.obj kvs) = .ok none := by
  obtain ⟨v, hv⟩ := lookup_isSome_of_any kvs "error" h
  refine ⟨?_, rfl, ?_⟩
  · simp [NamedEntityRecognition.parse_response, Json.isArr, pyContains, h, pySubscript, hv, except_bind_ok]
  · simp [RelationExtraction.build_relation, Json.isArr, pyContains, h, pySubscript, hv, pyGet, except_bind_ok]

theorem C4_fatal_error_object_amended_witness :
    ([("error", Json.str "boom")].any (fun kv => kv.1 == "error") = true) ∧
    NamedEntityRecognition.parse_response (fun _ => none) (fun j => j) ⟨"p", 1, "t"⟩ .null
        (.obj [("error", .str "boom")]) = .ok [] ∧
    RelationExtraction.build_relation (fun _ => none) "t" .null
        (.obj [("error", .str "boom")]) = .ok none ∧
    RelationExtraction.build_relation (fun _ => none) "t" (.obj [("pmid", .str "p")])
        (.obj [("error", .str "boom")]) = .ok none := by
  refine ⟨by decide, ?_⟩
  have := C4_fatal_error_object_amended (fun _ => none) (fun j => j) ⟨"p", 1, "t"⟩ .null
    "t" [("error", .str "boom")] [("pmid", .str "p")] (by decide)
  exact this

/-- C5: `_collect_entities` keys results solely off the line's metadata
    `(pmid, sentence_id)` pair, not its position: a line that is the only
    contributor to its key yields that key's entities wherever it sits in
    the file, and a line whose metadata key matches no queued sentence
    contributes nothing to the returned mapping. -/
theorem C5_metadata_correlation :
    (∀ (parse : String → Option Json) (normalize : Json → Json)
       (lookup : List ((String × Int) × Sentence)) (pre post : List String) (line : String)
       (k : Json × Json) (ents : List Json) (m : NamedEntityRecognition.EntityMap),
      NamedEntityRecognition.procLine parse normalize lookup line = .ok (some (k, ents)) →
      (∀ l ∈ pre ++ post,
        procKey (NamedEntityRecognition.procLine parse normalize lookup l) ≠ some k) →
      NamedEntityRecognition.collect_entities parse normalize lookup
        (some (pre ++ line :: post)) = .ok m →
      m.lookup k = some ents) ∧
    (∀ (parse : String → Option Json) (normalize : Json → Json)
       (lookup : List ((String × Int) × Sentence)) (pre post : List String) (line : String)
       (req resp md pm sid : Json),
      NamedEntityRecognition.decode_line parse (pyStrip line) = .ok (req, resp, md) →
      pyGet md "pmid" = .ok pm →
      pyGet md "sentence_id" = .ok sid →
      NamedEntityRecognition.sentenceLookupGet lookup pm sid = .ok none →
      NamedEntityRecognition.collect_entities parse normalize lookup
          (some (pre ++ line :: post)) =
        NamedEntityRecognition.collect_entities parse normalize lookup (some (pre ++ post))) := by
  constructor
  · intro parse normalize lookup pre post line k ents m hline hothers hcoll
    exact collectLoop_key_value parse normalize lookup line k ents post hline
      (fun l hl => hothers l (List.mem_append_right _ hl)) pre [] m
      (fun l hl => hothers l (List.mem_append_left _ hl)) hcoll
  · intro parse normalize lookup pre post line req resp md pm sid hdec hpm hsid hget
    have hline : NamedEntityRecognition.procLine parse normalize lookup line = .ok none := by
      unfold NamedEntityRecognition.procLine
      cases hs : pyStrip line == "" with
      | true => rfl
      | false =>
        rw [if_neg Bool.false_ne_true, hdec]
        simp only [hpm, hsid, hget, except_bind_ok]
    exact collectLoop_skip parse normalize lookup line post hline pre []

theorem C5_metadata_correlation_witness :
    NamedEntityRecognition.procLine
        (fun s => if s == "good" then
          some (.arr [.null, .arr [], .obj [("pmid", .str "p"), ("sentence_id", .num 1)]])
         else none)
        (fun j => j) [(("p", 1), ⟨"p", 1, "t"⟩)] "good" =
      .ok (some ((.str "p", .num 1), [])) ∧
    ([((Json.str "p", Json.num 1), ([] : List Json))].lookup (Json.str "p", Json.num 1)) =
      some [] ∧
    NamedEntityRecognition.collect_entities
        (fun s => if s == "solo" then
          some (.arr [.null, .null, .obj [("pmid", .str "z"), ("sentence_id", .num 0)]])
         else none)
        (fun j => j) [(("p", 1), ⟨"p", 1, "t"⟩)] (some ["solo"]) =
      NamedEntityRecognition.collect_entities
        (fun s => if s == "solo" then
          some (.arr [.null, .null, .obj [("pmid", .str "z"), ("sentence_id", .num 0)]])
         else none)
        (fun j => j) [(("p", 1), ⟨"p", 1, "t"⟩)] (some []) := by
  refine ⟨rfl, ?_, ?_⟩
  · exact C5_metadata_correlation.1
      (fun s => if s == "good" then
        some (.arr [.null, .arr [], .obj [("pmid", .str "p"), ("sentence_id", .num 1)]])
       else none)
      (fun j => j) [(("p", 1), ⟨"p", 1, "t"⟩)] [""] ["junk"] "good"
      (.str "p", .num 1) [] [((.str "p", .num 1), [])] rfl (by decide) rfl
  · exact C5_metadata_correlation.2
      (fun s => if s == "solo" then
        some (.arr [.null, .null, .obj [("pmid", .str "z"), ("sentence_id", .num 0)]])
       else none)
      (fun j => j) [(("p", 1), ⟨"p", 1, "t"⟩)] [] [] "solo"
      .null .null (.obj [("pmid", .str "z"), ("sentence_id", .num 0)]) (.str "z") (.num 0)
      rfl rfl rfl rfl

/-- C6 counterexample: with zero queued items, both runs complete normally
    with an empty result and without invoking the dispatcher — no
    configuration-fatal outcome is produced. -/
theorem C6_zero_input_counterexample :
    NamedEntityRecognition.run (fun _ => none) (fun j => j) ⟨[], 0, true, []⟩ "key" (some []) =
      (false, .ok []) ∧
    RelationExtraction.run (fun _ => none) "t" 0 "key" (some []) = (false, .ok []) :=
  ⟨rfl, rfl⟩

/-- C6 amended: when no work items have been queued, the run skips the
    dispatcher entirely and returns an empty result normally; it is not
    treated as a fatal configuration error. -/
theorem C6_zero_input_amended (parse : String → Option Json) (normalize : Json → Json)
    (lookupT : List ((String × Int) × Sentence)) (hOpen : Bool) (lines : List Json)
    (apiKey : String) (file : Option (List String)) (now : String)
    (fileR : Option (List String)) :
    NamedEntityRecognition.run parse normalize ⟨lookupT, 0, hOpen, lines⟩ apiKey file =
      (false, .ok []) ∧
    RelationExtraction.run parse now 0 apiKey fileR = (false, .ok []) :=
  ⟨rfl, rfl⟩

/-- C7: with at least one queued item and an unset or empty `OPENAI_API_KEY`
    (both read back as `""`), both runs raise `ValueError` before any
    dispatch: the dispatcher is not invoked and no results are produced. -/
theorem C7_missing_api_key (parse : String → Option Json) (normalize : Json → Json)
    (lookupT : List ((String × Int) × Sentence)) (hOpen : Bool) (lines : List Json)
    (n : Nat) (file : Option (List String)) (now : String) (fileR : Option (List String))
    (h : n ≠ 0) :
    NamedEntityRecognition.run parse normalize ⟨lookupT, n, hOpen, lines⟩ "" file =
      (false, .error .valueError) ∧
    RelationExtraction.run parse now n "" fileR = (false, .error .valueError) := by
  constructor
  · simp [NamedEntityRecognition.run, h]
  · simp [RelationExtraction.run, h]

theorem C7_missing_api_key_witness :
    (1 ≠ 0) ∧
    NamedEntityRecognition.run (fun _ => none) (fun j => j) ⟨[], 1, true, []⟩ "" (some []) =
      (false, .error .valueError) ∧
    RelationExtraction.run (fun _ => none) "t" 1 "" (some []) =
      (false, .error .valueError) :=
  ⟨by decide,
   C7_missing_api_key (fun _ => none) (fun j => j) [] true [] 1 (some []) "t" (some [])
     (by decide)⟩

/-- C8: `add_sentence` appends exactly one request line whose `"metadata"`
    field is exactly the `{pmid, sentence_id, text}` dict of the sentence,
    and later queueing operations leave previously queued lines (payloads
    and metadata) unchanged. -/
theorem C8_metadata_passthrough (model : String) (classes : List String)
    (st : NamedEntityRecognition.NERState) (s s2 : Sentence) (h : st.handleOpen = true) :
    (NamedEntityRecognition.add_sentence model classes st s).requestLines =
      st.requestLines ++ [NamedEntityRecognition.requestPayload model classes s] ∧
    pyGet (NamedEntityRecognition.requestPayload model classes s) "metadata" =
      .ok (NamedEntityRecognition.sentenceMetadata s) ∧
    (NamedEntityRecognition.add_sentence model classes
        (NamedEntityRecognition.add_sentence model classes st s) s2).requestLines =
      (st.requestLines ++ [NamedEntityRecognition.requestPayload model classes s])
        ++ [NamedEntityRecognition.requestPayload model classes s2] := by
  refine ⟨?_, rfl, ?_⟩
  · simp [NamedEntityRecognition.add_sentence, h]
  · simp [NamedEntityRecognition.add_sentence, h]

theorem C8_metadata_passthrough_witness :
    ((⟨[], 0, true, []⟩ : NamedEntityRecognition.NERState).handleOpen = true) ∧
    (NamedEntityRecognition.add_sentence "m" ["A"] ⟨[], 0, true, []⟩ ⟨"p", 1, "t"⟩).requestLines =
      [] ++ [NamedEntityRecognition.requestPayload "m" ["A"] ⟨"p", 1, "t"⟩] ∧
    pyGet (NamedEntityRecognition.requestPayload "m" ["A"] ⟨"p", 1, "t"⟩) "metadata" =
      .ok (NamedEntityRecognition.sentenceMetadata ⟨"p", 1, "t"⟩) :=
  ⟨rfl,
   (C8_metadata_passthrough "m" ["A"] ⟨[], 0, true, []⟩ ⟨"p", 1, "t"⟩ ⟨"q", 2, "u"⟩ rfl).1,
   (C8_metadata_passthrough "m" ["A"] ⟨[], 0, true, []⟩ ⟨"p", 1, "t"⟩ ⟨"q", 2, "u"⟩ rfl).2.1⟩

/-- C9 counterexample: `_request` is not total — a call that succeeds with an
    empty `choices` list raises `IndexError` at `response.choices[0]`. -/
theorem C9_request_total_counterexample :
    LLMClient.request (fun _ => none) (fun _ => .completed ⟨[]⟩) "m" "p" none true =
      .error .indexError :=
  rfl

/-- C9 amended: `_request` never propagates an exception of the underlying
    API call itself — any raised exception yields `{"text": "", "json":
    None}` — and on a response with at least one choice it returns normally
    with the raw content as text and, in JSON mode with non-empty content,
    the parse result (None for invalid JSON); only an empty `choices` list
    raises. -/
theorem C9_request_amended (parse : String → Option Json) (call : Json → LLMClient.CallResult)
    (model prompt : String) (temperature : Option Json) (json_mode : Bool) :
    (∀ exc, call (LLMClient.build_chat_completion_kwargs model prompt temperature json_mode) =
        .raised exc →
      LLMClient.request parse call model prompt temperature json_mode = .ok ⟨"", none⟩) ∧
    (∀ response choice rest,
      call (LLMClient.build_chat_completion_kwargs model prompt temperature json_mode) =
        .completed response →
      response.choices = choice :: rest →
      LLMClient.request parse call model prompt temperature json_mode =
        .ok ⟨choice.message.content.getD "",
          if json_mode && !(choice.message.content.getD "" == "") then
            parse (choice.message.content.getD "") else none⟩) := by
  constructor
  · intro exc hc
    simp [LLMClient.request, hc]
  · intro response choice rest hc hch
    simp [LLMClient.request, hc, hch]

theorem C9_request_amended_witness :
    LLMClient.request (fun _ => none) (fun _ => .raised "boom") "m" "p" none true =
      .ok ⟨"", none⟩ ∧
    LLMClient.request (fun _ => none) (fun _ => .completed ⟨[⟨⟨some "x"⟩⟩]⟩) "m" "p" none true =
      .ok ⟨"x", none⟩ := by
  constructor
  · exact (C9_request_amended (fun _ => none) (fun _ => .raised "boom") "m" "p" none true).1
      "boom" rfl
  · have := (C9_request_amended (fun _ => none) (fun _ => .completed ⟨[⟨⟨some "x"⟩⟩]⟩)
      "m" "p" none true).2 ⟨[⟨⟨some "x"⟩⟩]⟩ ⟨⟨some "x"⟩⟩ [] rfl rfl
    simpa using this

/-- C10: `_collect_entities` never aborts on a line that is not a JSON array
    of length at least 2 — `_decode_line` raises `ValueError`, the loop
    catches it and continues with the remaining lines; a 2-element array
    line is accepted with its metadata defaulting to the empty object. -/
theorem C10_malformed_line_skipped :
    (∀ (parse : String → Option Json) (normalize : Json → Json)
       (lookup : List ((String × Int) × Sentence)) (line : String) (rest : List String)
       (m : NamedEntityRecognition.EntityMap),
      (pyStrip line == "") = false →
      wellFormedLine parse (pyStrip line) = false →
      NamedEntityRecognition.decode_line parse (pyStrip line) = .error .valueError ∧
      NamedEntityRecognition.collectLoop parse normalize lookup (line :: rest) m =
        NamedEntityRecognition.collectLoop parse normalize lookup rest m) ∧
    (∀ (parse : String → Option Json) (l : String) (a b : Json),
      parse l = some (.arr [a, b]) →
      NamedEntityRecognition.decode_line parse l = .ok (a, b, .obj [])) := by
  constructor
  · intro parse normalize lookup line rest m hne hbad
    have hdec : NamedEntityRecognition.decode_line parse (pyStrip line) =
        .error .valueError := by
      unfold NamedEntityRecognition.decode_line
      unfold wellFormedLine at hbad
      cases hp : parse (pyStrip line) with
      | none => rfl
      | some j =>
        rw [hp] at hbad
        cases j with
        | null => rfl
        | bool b => rfl
        | num n => rfl
        | str s => rfl
        | obj kvs => rfl
        | arr xs =>
          cases xs with
          | nil => rfl
          | cons a t =>
            cases t with
            | nil => rfl
            | cons b t2 =>
              simp at hbad
    refine ⟨hdec, ?_⟩
    have hproc : NamedEntityRecognition.procLine parse normalize lookup line = .ok none := by
      unfold NamedEntityRecognition.procLine
      rw [hne]
      rw [if_neg Bool.false_ne_true, hdec]
    simp only [NamedEntityRecognition.collectLoop, hproc]
  · intro parse l a b hp
    unfold NamedEntityRecognition.decode_line
    rw [hp]
    rfl

theorem C10_malformed_line_skipped_witness :
    ((pyStrip "bad" == "") = false) ∧
    (wellFormedLine (fun _ => none) (pyStrip "bad") = false) ∧
    (NamedEntityRecognition.decode_line (fun _ => none) (pyStrip "bad") =
        .error .valueError ∧
      NamedEntityRecognition.collectLoop (fun _ => none) (fun j => j) [] ["bad", "x"] [] =
        NamedEntityRecognition.collectLoop (fun _ => none) (fun j => j) [] ["x"] []) ∧
    NamedEntityRecognition.decode_line
        (fun s => if s == "[1,2]" then some (.arr [.num 1, .num 2]) else none) "[1,2]" =
      .ok (.num 1, .num 2, .obj []) := by
  refine ⟨by decide, by decide, ?_, ?_⟩
  · exact C10_malformed_line_skipped.1 (fun _ => none) (fun j => j) [] "bad" ["x"] []
      (by decide) (by decide)
  · exact C10_malformed_line_skipped.2
      (fun s => if s == "[1,2]" then some (.arr [.num 1, .num 2]) else none) "[1,2]"
      (.num 1) (.num 2) (by decide)

end TalazoKG
